import Mathlib

/-!
Verification of the match analytics engine of `src/data_processing.py`.

Modeling conventions for the shallow embedding:
- a Python dict field that may be absent (accessed with `.get`) is an `Option`;
- Python ints are `Int`; Python floats are modeled as rationals `ℚ`;
- Python lists are `List`; insertion-ordered dicts are association lists;
- `None`-vs-value truthiness is made explicit at each use site, mirroring the
  source check (`if not x`, `x == y`, ...).
-/

set_option linter.unusedVariables false

attribute [local semireducible] Rat.mul Rat.inv Rat.add Rat.sub

/-- One entry of `matchInfo.contestant`. -/
structure Contestant where
  id : Option String
  name : Option String
  position : Option String
deriving DecidableEq

/-- The `scores.total` block of `liveData.matchDetails`. -/
structure Score where
  home : Option Int
  away : Option Int
deriving DecidableEq

/-- The `liveData.matchDetails` block. -/
structure MatchDetails where
  matchStatus : Option String
  scoresTotal : Option Score
deriving DecidableEq

/-- The `matchInfo` block of a raw match document. -/
structure MatchInfo where
  id : Option String
  date : Option String
  contestant : List Contestant
deriving DecidableEq

/-- One entry of `liveData.goal`. -/
structure GoalEvent where
  periodId : Option Int
  timeMin : Option Int
  contestantId : Option String
deriving DecidableEq

/-- One entry of a `stat` list (player-level or team-level). -/
structure StatEntry where
  type : Option String
  value : Option String
deriving DecidableEq

/-- One entry of `lineUp[i].teamOfficial`. -/
structure Official where
  type : Option String
  matchName : Option String
  firstName : Option String
  lastName : Option String
  shortFirstName : Option String
  shortLastName : Option String
deriving DecidableEq

/-- One entry of `lineUp[i].player`. -/
structure PlayerEntry where
  playerId : Option String
  matchName : Option String
  lastName : Option String
  position : Option String
  stat : List StatEntry
deriving DecidableEq

/-- One entry of `liveData.lineUp`. -/
structure Lineup where
  contestantId : Option String
  player : List PlayerEntry
  stat : List StatEntry
  teamOfficial : List Official
deriving DecidableEq

/-- One entry of `liveData.substitute`. -/
structure Substitution where
  contestantId : Option String
  playerOnId : Option String
  playerOffId : Option String
  timeMin : Option Int
deriving DecidableEq

/-- The `liveData` block of a raw match document. -/
structure LiveData where
  matchDetails : Option MatchDetails
  goal : List GoalEvent
  lineUp : List Lineup
  substitute : List Substitution
deriving DecidableEq

/-- One raw match document. -/
structure MatchDoc where
  matchInfo : Option MatchInfo
  liveData : Option LiveData
deriving DecidableEq

/-- The top-level JSON data object (`data`): a dict that may lack the `matches` key
(`matches` is a reserved word in Lean, hence the field name `matchList`). -/
structure Corpus where
  matchList : Option (List MatchDoc)
deriving DecidableEq

/-- The dict returned by `extract_match_result` (a `MatchRecord` in the spec's words). -/
structure MatchResult where
  match_id : Option String
  date : Option String
  home_team : Option String
  home_id : Option String
  away_team : Option String
  away_id : Option String
  home_goals : Int
  away_goals : Int
  winner : String
  goals : List GoalEvent
deriving DecidableEq

/-- Home/away name and id assignment, mirroring the contestant loop of
`extract_match_result` (src/data_processing.py lines 30-41); a later contestant
with the same position tag overwrites an earlier one. -/
structure Roles where
  home_team : Option String
  home_id : Option String
  away_team : Option String
  away_id : Option String
deriving DecidableEq

/-- The contestant loop of `extract_match_result`. -/
def assignRoles (cs : List Contestant) : Roles :=
  cs.foldl (fun r c =>
    if c.position == some "home" then { r with home_team := c.name, home_id := c.id }
    else if c.position == some "away" then { r with away_team := c.name, away_id := c.id }
    else r) ⟨none, none, none, none⟩

/-- `extract_match_result` (src/data_processing.py lines 8-78). -/
def extract_match_result (m : MatchDoc) : Option MatchResult :=
  match m.matchInfo with
  | none => none
  | some mi =>
    let roles := assignRoles mi.contestant
    match m.liveData with
    | none => none
    | some ld =>
      match ld.matchDetails with
      | none => none
      | some md =>
        if md.matchStatus == some "Played" then
          let scores := md.scoresTotal.getD ⟨none, none⟩
          let home_goals := scores.home.getD 0
          let away_goals := scores.away.getD 0
          let winner := if home_goals > away_goals then "home"
                        else if away_goals > home_goals then "away"
                        else "draw"
          some ⟨mi.id, mi.date, roles.home_team, roles.home_id, roles.away_team,
                roles.away_id, home_goals, away_goals, winner, ld.goal⟩
        else none

/-- A "Played" document with no contestant roles and no score block. -/
def c1Doc : MatchDoc :=
  { matchInfo := some { id := some "m1", date := some "2023-01-01Z", contestant := [] },
    liveData := some { matchDetails := some { matchStatus := some "Played", scoresTotal := none },
                       goal := [], lineUp := [], substitute := [] } }

/-- Python `int(s)` on a string, as used for stat values; yields none where the
source would raise (callers guard with try/except or never hit that case). -/
def pyInt? (s : String) : Option Int := s.toInt?

/-- Red-card count read from one stat entry: `int(stat.get('value', 0))`. -/
def statRedCards (st : StatEntry) : Int :=
  match st.value with
  | none => 0
  | some v => (pyInt? v).getD 0

/-- `match_has_red_cards` (lines 81-110). -/
def match_has_red_cards (m : MatchDoc) : Bool :=
  match m.liveData with
  | none => false
  | some ld =>
    ld.lineUp.any (fun lineup =>
      lineup.stat.any (fun st =>
        st.type == some "totalRedCard" && decide (statRedCards st > 0)))

/-- The sort key of `analyze_match_goals`: `(g.get('periodId', 0), g.get('timeMin', 0))`. -/
def goalSortKey (g : GoalEvent) : Int × Int := (g.periodId.getD 0, g.timeMin.getD 0)

/-- Lexicographic comparison on the goal sort key, for the stable sort. -/
def goalLE (a b : GoalEvent) : Bool :=
  decide ((goalSortKey a).1 < (goalSortKey b).1) ||
    ((goalSortKey a).1 == (goalSortKey b).1 && decide ((goalSortKey a).2 ≤ (goalSortKey b).2))

/-- Stable sort modeling Python's `sorted` (Python's sort is stable, and any
stable sort by the same comparison computes the same list; insertion sort is
used so that concrete proofs can evaluate it). -/
def pySorted {a : Type} (le : a -> a -> Bool) (l : List a) : List a :=
  List.insertionSort (fun x y => le x y = true) l

/-- The flags returned by `analyze_match_goals`. -/
structure GoalFlags where
  scored_first : Bool
  conceded_first : Bool
  comeback : Bool
deriving DecidableEq

/-- The goal-replay loop of `analyze_match_goals` (lines 156-169): running score
for team and opponent, flagging the first time the opponent's total exceeds the
team's. Returns the final `was_losing` flag. -/
def replayWasLosing (goals : List GoalEvent) (team_id : Option String) : Bool :=
  (goals.foldl (fun (st : Int × Int × Bool) g =>
    let team_score := if g.contestantId == team_id then st.1 + 1 else st.1
    let opponent_score := if g.contestantId == team_id then st.2.1 else st.2.1 + 1
    (team_score, opponent_score, st.2.2 || decide (opponent_score > team_score)))
    (0, 0, false)).2.2

/-- The final-result check of `analyze_match_goals` (lines 172-177): the `winner`
field indicates a win or draw from the perspective side. -/
def finalWinOrDraw (mr : MatchResult) (team_name : Option String) : Bool :=
  if team_name == mr.home_team then mr.winner == "home" || mr.winner == "draw"
  else mr.winner == "away" || mr.winner == "draw"

/-- `analyze_match_goals` (lines 113-183). The argument is a record produced by
`extract_match_result`, so the `not match_result` / missing-goals-key guards of
the source correspond to the caller's None check; the empty-goals guard is the
first branch here. The team name is `Option String` because
`calculate_team_stats` passes the possibly-unresolved `home_team` / `away_team`
fields straight through as `team_name`. -/
def analyze_match_goals (mr : MatchResult) (team_name : Option String) : GoalFlags :=
  match mr.goals with
  | [] => ⟨false, false, false⟩
  | g0 :: gs =>
    let is_home := team_name == mr.home_team
    let team_id := if is_home then mr.home_id else mr.away_id
    let sorted_goals := pySorted goalLE (g0 :: gs)
    match sorted_goals with
    | [] => ⟨false, false, false⟩
    | first_goal :: _ =>
      let scored_first := first_goal.contestantId == team_id
      let conceded_first := !(first_goal.contestantId == team_id)
      let comeback :=
        if conceded_first then
          if replayWasLosing sorted_goals team_id then
            if is_home && (mr.winner == "home" || mr.winner == "draw") then true
            else if !is_home && (mr.winner == "away" || mr.winner == "draw") then true
            else false
          else false
        else false
      ⟨scored_first, conceded_first, comeback⟩

/-- The example match of C4's spec sentence: the perspective team concedes at
minute 10, then scores at minutes 50 and 70 and wins 2-1. -/
def c4Match : MatchResult :=
  { match_id := some "m4", date := some "2023-02-01Z",
    home_team := some "A", home_id := some "idA",
    away_team := some "B", away_id := some "idB",
    home_goals := 2, away_goals := 1, winner := "home",
    goals := [⟨some 1, some 10, some "idB"⟩, ⟨some 2, some 50, some "idA"⟩,
              ⟨some 2, some 70, some "idA"⟩] }

/-- A calendar date (year, month, day). -/
structure Date where
  y : Nat
  m : Nat
  d : Nat
deriving DecidableEq

/-- Calendar-date comparison (lexicographic). -/
def dateLE (a b : Date) : Bool :=
  decide (a.y < b.y) ||
    (a.y == b.y && (decide (a.m < b.m) || (a.m == b.m && decide (a.d ≤ b.d))))

/-- Split a character list at a separator character (the char-level model of
Python `str.split`, kept on lists so proofs can evaluate it). -/
def splitOnChar (c : Char) : List Char → List (List Char)
  | [] => [[]]
  | x :: xs =>
    let r := splitOnChar c xs
    if x = c then [] :: r
    else
      match r with
      | [] => [[x]]
      | h :: t => (x :: h) :: t

/-- Digit parse of one split component (the model of a strict decimal integer
field): none on an empty or non-digit component. -/
def digitsToNat? (l : List Char) : Option Nat :=
  match l with
  | [] => none
  | _ :: _ =>
    l.foldl (fun acc? c =>
      match acc? with
      | none => none
      | some n => if c.isDigit then some (n * 10 + (c.toNat - 48)) else none) (some 0)

/-- Models `pd.to_datetime(s, format = year-month-day, errors = coerce)`: a
strict year-month-day parse returning none (NaT) on failure; full calendar-day
validation is simplified to the range 1..31. -/
def parseYMD (s : String) : Option Date :=
  match splitOnChar (Char.ofNat 45) s.data with
  | [ys, ms, ds] =>
    match digitsToNat? ys, digitsToNat? ms, digitsToNat? ds with
    | some yv, some mv, some dv =>
      if 1 ≤ mv ∧ mv ≤ 12 ∧ 1 ≤ dv ∧ dv ≤ 31 then some ⟨yv, mv, dv⟩ else none
    | _, _, _ => none
  | _ => none

/-- Python `str(x)` for an optional string: `str(None)` is the string "None". -/
def pyStr (o : Option String) : String := o.getD "None"

/-- `date_str.replace` removing every Z (modeled on the character list). -/
def stripZ (s : String) : String := ⟨s.data.filter (fun c => c ≠ Char.ofNat 90)⟩

/-- `date_str.split` on T, first component (modeled on the character list). -/
def splitTHead (s : String) : String := ⟨s.data.takeWhile (fun c => c ≠ Char.ofNat 84)⟩

/-- The date filter of `build_standings_table` (lines 369-388): strip the zone
marker when the date is a string, then parse; a match whose date fails to parse
(NaT) is KEPT. -/
def standingsDateKeep (date : Option String) (range : Date × Date) : Bool :=
  match date.map stripZ with
  | none => true
  | some s =>
    match parseYMD s with
    | none => true
    | some d => dateLE range.1 d && dateLE d range.2

/-- The date filter of `get_minutes_played_by_player` (lines 854-862): a match
whose date fails to parse (NaT) is DROPPED. -/
def minutesDateKeep (date : Option String) (range : Date × Date) : Bool :=
  match parseYMD (splitTHead (stripZ (pyStr date))) with
  | none => false
  | some d => dateLE range.1 d && dateLE d range.2

/-- The date filter of `calculate_competitiveness_index` (lines 951-959),
textually duplicated in the source from the player-minutes path. -/
def compDateKeep (date : Option String) (range : Date × Date) : Bool :=
  match parseYMD (splitTHead (stripZ (pyStr date))) with
  | none => false
  | some d => dateLE range.1 d && dateLE d range.2

/-- Per-team accumulator entry of `calculate_team_stats` (lines 245-255). -/
structure TS where
  PJ : Int
  G : Int
  E : Int
  P : Int
  GF : Int
  GC : Int
  Pts : Int
deriving DecidableEq

/-- A freshly initialized team entry (line 245-255). -/
def TS.zero : TS := ⟨0, 0, 0, 0, 0, 0, 0⟩

/-- One row of the standings table (goal difference, points percentage, sort and
rank applied). -/
structure Row where
  Pos : Int
  Equipo : Option String
  PJ : Int
  G : Int
  E : Int
  P : Int
  GF : Int
  GC : Int
  DG : Int
  Pts : Int
  pctPts : ℚ
deriving DecidableEq

/-- Round a rational to the nearest integer, ties to even, modeling Python's
`round` (floats are modeled as rationals). -/
def pyRoundHalfEven (q : ℚ) : Int :=
  let f := ⌊q⌋
  let r := q - f
  if r < 1/2 then f
  else if 1/2 < r then f + 1
  else if f % 2 = 0 then f else f + 1

/-- Python `round(x, 1)`: round to one decimal place. -/
def pyRound1 (q : ℚ) : ℚ := (pyRoundHalfEven (q * 10) : ℚ) / 10

/-- Dict-key lookup over the insertion-ordered team table. -/
def containsKey (acc : List (Option String × TS)) (k : Option String) : Bool :=
  acc.any (fun e => e.1 == k)

/-- Lines 243-255: register a team with a zero row if not yet present. -/
def initTeam (acc : List (Option String × TS)) (k : Option String) :
    List (Option String × TS) :=
  if containsKey acc k then acc else acc ++ [(k, TS.zero)]

/-- Update the (unique) entry of a key, preserving insertion order. -/
def updateTeam (acc : List (Option String × TS)) (k : Option String) (f : TS → TS) :
    List (Option String × TS) :=
  match acc with
  | [] => []
  | e :: rest => if e.1 == k then (e.1, f e.2) :: rest else e :: updateTeam rest k f

/-- The per-side stat update of `calculate_team_stats` (lines 272-284, 301-313). -/
def applyResult (gf gc : Int) (isWin isDraw : Bool) (ts : TS) : TS :=
  let ts1 := { ts with PJ := ts.PJ + 1, GF := ts.GF + gf, GC := ts.GC + gc }
  if isWin then { ts1 with G := ts1.G + 1, Pts := ts1.Pts + 3 }
  else if isDraw then { ts1 with E := ts1.E + 1, Pts := ts1.Pts + 1 }
  else { ts1 with P := ts1.P + 1 }

/-- The advanced-filters dict: `scored_first`, `conceded_first`, `comeback`,
`no_red_cards`, each read with a truthy `.get`. -/
structure AdvFilters where
  scored_first : Bool
  conceded_first : Bool
  comeback : Bool
  no_red_cards : Bool
deriving DecidableEq

/-- The advanced-filter check of `calculate_team_stats` (lines 262-270, 291-299),
evaluated per team perspective. -/
def shouldCountAdv (adv : Option AdvFilters) (m : MatchResult) (team : Option String) : Bool :=
  match adv with
  | none => true
  | some a =>
    let ga := analyze_match_goals m team
    !(a.scored_first && !ga.scored_first) &&
      !(a.conceded_first && !ga.conceded_first) &&
      !(a.comeback && !ga.comeback)

/-- The body of the match loop of `calculate_team_stats` (lines 214-313). -/
def teamStatsStep (match_type : String) (top_teams_list : Option (List (Option String)))
    (advanced_filters : Option AdvFilters)
    (acc : List (Option String × TS)) (om : Option MatchResult) :
    List (Option String × TS) :=
  match om with
  | none => acc
  | some m =>
    let pass :=
      match top_teams_list with
      | none => true
      | some l =>
        if match_type == "Local" then l.contains m.away_team
        else if match_type == "Visitante" then l.contains m.home_team
        else l.contains m.home_team || l.contains m.away_team
    if !pass then acc
    else
      let acc1 := initTeam (initTeam acc m.home_team) m.away_team
      let acc2 :=
        if (match_type == "Todos" || match_type == "Local") &&
            (match top_teams_list with
             | none => true
             | some l => l.contains m.away_team) &&
            shouldCountAdv advanced_filters m m.home_team then
          updateTeam acc1 m.home_team
            (applyResult m.home_goals m.away_goals (m.winner == "home") (m.winner == "draw"))
        else acc1
      if (match_type == "Todos" || match_type == "Visitante") &&
          (match top_teams_list with
           | none => true
           | some l => l.contains m.home_team) &&
          shouldCountAdv advanced_filters m m.away_team then
        updateTeam acc2 m.away_team
          (applyResult m.away_goals m.home_goals (m.winner == "away") (m.winner == "draw"))
      else acc2

/-- Lines 316-320: goal difference and points percentage for one entry; the rank
column is filled in later. -/
def toRow (e : Option String × TS) : Row :=
  { Pos := 0, Equipo := e.1, PJ := e.2.PJ, G := e.2.G, E := e.2.E, P := e.2.P,
    GF := e.2.GF, GC := e.2.GC, DG := e.2.GF - e.2.GC, Pts := e.2.Pts,
    pctPts :=
      if e.2.PJ * 3 > 0 then pyRound1 ((e.2.Pts : ℚ) / ((e.2.PJ : ℚ) * 3) * 100) else 0 }

/-- The sort of lines 326-329: points, goal difference, goals for, descending. -/
def rowLE (a b : Row) : Bool :=
  decide (a.Pts > b.Pts) ||
    (a.Pts == b.Pts && (decide (a.DG > b.DG) || (a.DG == b.DG && decide (a.GF ≥ b.GF))))

/-- Line 332: the 1-based rank column, assigned after sorting. -/
def addPos (i : Int) : List Row → List Row
  | [] => []
  | r :: rest => { r with Pos := i } :: addPos (i + 1) rest

/-- The opponent-restriction resolution of `calculate_team_stats` (lines
201-209): a truthy rank range plus reference standings yields the teams ranked
in the inclusive range; a non-empty explicit rival list overrides it. -/
def resolveTopTeams (top_n_range : Option (Int × Int))
    (reference_standings : Option (List Row))
    (rival_teams : Option (List (Option String))) : Option (List (Option String)) :=
  let fromRange :=
    match top_n_range, reference_standings with
    | some (min_pos, max_pos), some rows =>
      some ((rows.filter
          (fun r => decide (min_pos ≤ r.Pos) && decide (r.Pos ≤ max_pos))).map
        (fun r => r.Equipo))
    | _, _ => none
  match rival_teams with
  | some (t :: ts) => some (t :: ts)
  | _ => fromRange

/-- The fold-and-finalize part of `calculate_team_stats` (lines 211-334), given
the resolved opponent restriction. -/
def calcTeamStatsCore (ms : List (Option MatchResult)) (match_type : String)
    (top_teams_list : Option (List (Option String)))
    (advanced_filters : Option AdvFilters) : List Row :=
  addPos 1 (pySorted rowLE
    ((ms.foldl (teamStatsStep match_type top_teams_list advanced_filters) []).map toRow))

/-- `calculate_team_stats` (lines 186-334). -/
def calculate_team_stats (ms : List (Option MatchResult)) (match_type : String)
    (top_n_range : Option (Int × Int)) (reference_standings : Option (List Row))
    (rival_teams : Option (List (Option String)))
    (advanced_filters : Option AdvFilters) : List Row :=
  calcTeamStatsCore ms match_type
    (resolveTopTeams top_n_range reference_standings rival_teams) advanced_filters

/-- The unfiltered extraction pass of `build_standings_table` (lines 357-361). -/
def allExtracted (data : Corpus) : List MatchResult :=
  (data.matchList.getD []).filterMap extract_match_result

/-- The filtered extraction pass of `build_standings_table` (lines 363-395):
extraction, then the date filter, then the red-card filter. -/
def matchesProcessed (data : Corpus) (date_range : Option (Date × Date))
    (advanced_filters : Option AdvFilters) : List MatchResult :=
  (data.matchList.getD []).foldr (fun doc rest =>
    match extract_match_result doc with
    | none => rest
    | some r =>
      let keepDate :=
        match date_range with
        | none => true
        | some range => standingsDateKeep r.date range
      let keepRed :=
        match advanced_filters with
        | none => true
        | some a => !(a.no_red_cards && match_has_red_cards doc)
      if keepDate && keepRed then r :: rest else rest) []

/-- `build_standings_table` (lines 337-405). -/
def build_standings_table (data : Corpus) (match_type : String)
    (top_n_range : Option (Int × Int)) (date_range : Option (Date × Date))
    (rival_teams : Option (List (Option String)))
    (advanced_filters : Option AdvFilters) : List Row :=
  match data.matchList with
  | none => []
  | some _ =>
    let reference_standings : Option (List Row) :=
      match top_n_range with
      | none => none
      | some _ =>
        some (calculate_team_stats ((allExtracted data).map some) "Todos" none none none none)
    calculate_team_stats ((matchesProcessed data date_range advanced_filters).map some)
      match_type top_n_range reference_standings rival_teams advanced_filters

/-- The accumulated points identity: points are 3 per win plus 1 per draw. -/
def PtsInv (acc : List (Option String × TS)) : Prop :=
  ∀ e ∈ acc, e.2.Pts = 3 * e.2.G + e.2.E

/-- A 0-0 draw between A and B. -/
def c3DrawMatch : MatchResult :=
  { match_id := some "m3", date := some "2023-03-01Z",
    home_team := some "A", home_id := some "idA",
    away_team := some "B", away_id := some "idB",
    home_goals := 0, away_goals := 0, winner := "draw", goals := [] }

/-- The row the aggregator produces for team A after the 0-0 draw. -/
def c3BadRow : Row :=
  { Pos := 1, Equipo := some "A", PJ := 1, G := 0, E := 1, P := 0, GF := 0, GC := 0,
    DG := 0, Pts := 1, pctPts := 333/10 }

/-- The row the aggregator produces for the winner of `c4Match`. -/
def c3Row : Row :=
  { Pos := 1, Equipo := some "A", PJ := 1, G := 1, E := 0, P := 0, GF := 2, GC := 1,
    DG := 1, Pts := 3, pctPts := 100 }

/-- Sum of the played column over standings rows. -/
def sumPJRows (rows : List Row) : Int := (rows.map (fun r => r.PJ)).sum

/-- Sum of the played counters over the accumulator. -/
def sumPJAcc (acc : List (Option String × TS)) : Int := (acc.map (fun e => e.2.PJ)).sum

/-- The contestants list of a document (empty when `matchInfo` is missing). -/
def contestantsOf (m : MatchDoc) : List Contestant :=
  (m.matchInfo.map (fun mi => mi.contestant)).getD []

/-- Whether a lineup block belongs to the named team: some contestant carries
this lineup's id and the requested name (lines 510-516, 556-562). -/
def lineupIsTeam (m : MatchDoc) (team_name : String) (tl : Lineup) : Bool :=
  (contestantsOf m).any (fun c => c.id == tl.contestantId && c.name == some team_name)

/-- Player display name: `matchName`, falling back to `lastName`, then empty. -/
def playerDisplayName (p : PlayerEntry) : String :=
  match p.matchName with
  | some n => n
  | none => p.lastName.getD ""

/-- The lineup scan of `get_team_starting_players`: the first matched lineup
returns its non-substitute players. -/
def startersScan (m : MatchDoc) (team_name : String) : List Lineup → List String
  | [] => []
  | tl :: rest =>
    if lineupIsTeam m team_name tl then
      (tl.player.filter (fun p => !(p.position == some "Substitute"))).map playerDisplayName
    else startersScan m team_name rest

/-- `get_team_starting_players` (lines 487-530). -/
def get_team_starting_players (m : MatchDoc) (team_name : String) : List String :=
  match m.liveData with
  | none => []
  | some ld => startersScan m team_name ld.lineUp

/-- Official display-name resolution of `get_team_manager` (lines 570-586),
with Python truthiness on each component. -/
def resolveOfficialName (o : Official) : String :=
  let mn := o.matchName.getD ""
  if mn ≠ "" then mn
  else
    let fn := match o.firstName with
      | some v => v
      | none => o.shortFirstName.getD ""
    let ln := match o.lastName with
      | some v => v
      | none => o.shortLastName.getD ""
    if fn ≠ "" ∧ ln ≠ "" then fn ++ " " ++ ln
    else if ln ≠ "" then ln
    else if fn ≠ "" then fn
    else ""

/-- The lineup scan of `get_team_manager`: the first matched lineup that has a
manager official returns its resolved name; others fall through. -/
def managerScan (m : MatchDoc) (team_name : String) : List Lineup → String
  | [] => ""
  | tl :: rest =>
    if lineupIsTeam m team_name tl then
      match tl.teamOfficial.find? (fun o => o.type == some "manager") with
      | some o => resolveOfficialName o
      | none => managerScan m team_name rest
    else managerScan m team_name rest

/-- `get_team_manager` (lines 533-588). -/
def get_team_manager (m : MatchDoc) (team_name : String) : String :=
  match m.liveData with
  | none => ""
  | some ld => managerScan m team_name ld.lineUp

/-- First contestant with the requested name, yielding its id (lines 884-890,
1134-1139, 1213-1218, 1263-1267). -/
def firstTeamContestantId (cs : List Contestant) (team_name : String) : Option String :=
  match cs.find? (fun c => c.name == some team_name) with
  | some c => c.id
  | none => none

/-- The same id gated by Python truthiness (`if not contestant_id`). -/
def truthyTeamId (m : MatchDoc) (team_name : String) : Option String :=
  match firstTeamContestantId (contestantsOf m) team_name with
  | some s => if s = "" then none else some s
  | none => none

/-- Python dict assignment on a string-keyed insertion-ordered dict: replace in
place, or append. -/
def dictInsert {a : Type} : List (String × a) → String → a → List (String × a)
  | [], k, v => [(k, v)]
  | e :: rest, k, v =>
    if e.1 == k then (e.1, v) :: rest else e :: dictInsert rest k v

/-- Python `dict.get` with no default. -/
def dictGet? {a : Type} : List (String × a) → String → Option a
  | [], _ => none
  | e :: rest, k => if e.1 == k then some e.2 else dictGet? rest k

/-- `dict.get` keyed by a possibly-missing player id. -/
def dictGetOpt? {a : Type} (l : List (String × a)) (k : Option String) : Option a :=
  match k with
  | some s => dictGet? l s
  | none => none

/-- The entry/exit maps of `get_player_segments_in_match` (lines 1166-1178):
keyed by the on/off player id when that id is truthy. -/
def buildSubMap (sel : Substitution → Option String) (subs : List Substitution) :
    List (String × Int) :=
  subs.foldl (fun acc s =>
    match sel s with
    | some pid => if pid = "" then acc else dictInsert acc pid (s.timeMin.getD 0)
    | none => acc) []

/-- Was the player flagged as having started the match (lines 1188-1189). -/
def playerGameStarted (p : PlayerEntry) : Bool :=
  p.stat.any (fun s => s.type == some "gameStarted" && s.value == some "1")

/-- `get_player_segments_in_match` (lines 1127-1204): per player, the on-pitch
segment (start minute, optional exit minute; none means "played to the end"). -/
def get_player_segments_in_match (m : MatchDoc) (team_name : String) :
    List (String × (Int × Option Int)) :=
  match truthyTeamId m team_name with
  | none => []
  | some cid =>
    match m.liveData with
    | none => []
    | some ld =>
      match ld.lineUp.find? (fun tl => tl.contestantId == some cid) with
      | none => []
      | some teamLineup =>
        let team_subs := ld.substitute.filter (fun s => s.contestantId == some cid)
        let player_in := buildSubMap (fun s => s.playerOnId) team_subs
        let player_out := buildSubMap (fun s => s.playerOffId) team_subs
        teamLineup.player.foldl (fun segs p =>
          match p.matchName with
          | none => segs
          | some player_name =>
            if player_name = "" then segs
            else if playerGameStarted p then
              dictInsert segs player_name (0, dictGetOpt? player_out p.playerId)
            else
              match dictGetOpt? player_in p.playerId with
              | none => segs
              | some min_start =>
                dictInsert segs player_name
                  (min_start, dictGetOpt? player_out p.playerId)) []

/-- `get_player_starter_status` (lines 1207-1248). -/
def get_player_starter_status (m : MatchDoc) (team_name : String) :
    List (String × Bool) :=
  match truthyTeamId m team_name with
  | none => []
  | some cid =>
    match m.liveData with
    | none => []
    | some ld =>
      match ld.lineUp.find? (fun tl => tl.contestantId == some cid) with
      | none => []
      | some teamLineup =>
        teamLineup.player.foldl (fun st p =>
          match p.matchName with
          | none => st
          | some player_name =>
            if player_name = "" then st
            else dictInsert st player_name (playerGameStarted p)) []

/-- One entry of the per-team goal timeline (lines 1278-1282). -/
structure TLGoal where
  timeMin : Int
  is_team_goal : Bool
  is_home : Bool
deriving DecidableEq

/-- `get_goals_timeline` (lines 1251-1284). There is no truthiness guard on the
contestant id here: a goal with no contestant id and a team with no resolved id
compare equal (None == None). -/
def get_goals_timeline (m : MatchDoc) (team_name : String) : List TLGoal :=
  match extract_match_result m with
  | none => []
  | some r =>
    let is_home := r.home_team == some team_name
    let cid := firstTeamContestantId (contestantsOf m) team_name
    ((m.liveData.map (fun ld => ld.goal)).getD []).map (fun g =>
      ⟨g.timeMin.getD 0, g.contestantId == cid, is_home⟩)

/-- `get_match_end_time` (lines 1287-1305): 90, raised by the Python `max` of
the goal minutes and of the substitution minutes when those lists are
nonempty. -/
def get_match_end_time (m : MatchDoc) (goals_timeline : List TLGoal) : Int :=
  let max_time : Int := 90
  let max_time :=
    match goals_timeline.map (fun g => g.timeMin) with
    | [] => max_time
    | t :: ts => max max_time (ts.foldl max t)
  match (((m.liveData.map (fun ld => ld.substitute)).getD []).map
      (fun s => s.timeMin.getD 0)) with
  | [] => max_time
  | t :: ts => max max_time (ts.foldl max t)

/-- `calculate_goals_in_segment` (lines 1308-1323): goals with minute in the
closed interval, split into (for, against); `is_home` is accepted and unused,
as in the source. -/
def calculate_goals_in_segment (goals_timeline : List TLGoal) (min_start min_end : Int)
    (is_home : Bool) : Int × Int :=
  goals_timeline.foldl (fun gfgc g =>
    if min_start ≤ g.timeMin ∧ g.timeMin ≤ min_end then
      if g.is_team_goal then (gfgc.1 + 1, gfgc.2) else (gfgc.1, gfgc.2 + 1)
    else gfgc) (0, 0)

/-- `calculate_goals_outside_segment` (lines 1326-1341): goals strictly before
the start or strictly after the end; `match_end` and `is_home` are accepted and
unused, as in the source. -/
def calculate_goals_outside_segment (goals_timeline : List TLGoal)
    (min_start min_end : Int) (match_end : Int) (is_home : Bool) : Int × Int :=
  goals_timeline.foldl (fun gfgc g =>
    if g.timeMin < min_start ∨ g.timeMin > min_end then
      if g.is_team_goal then (gfgc.1 + 1, gfgc.2) else (gfgc.1, gfgc.2 + 1)
    else gfgc) (0, 0)

/-- Points from a (for, against) goal pair: win 3, loss 0, draw 1 (the branch
shape of lines 1023-1031 and 1043-1051). -/
def pointsFromGoals (gfgc : Int × Int) : Int :=
  if gfgc.1 > gfgc.2 then 3 else if gfgc.1 < gfgc.2 then 0 else 1

/-- One player-match record of `calculate_competitiveness_index`
(lines 1058-1073); floats are modeled as rationals. -/
structure PlayerRec where
  player_name : String
  match_date : Option String
  rival : Option String
  minutes_played : Int
  minutes_norm : ℚ
  played_points : Int
  without_points : Option Int
  diff_points : ℚ
  played_gd : Int
  total_points : Int
  indice_competitividad : ℚ
  total_result : String
  is_starter : Bool
  sub_entry_situation : Option String
deriving DecidableEq

/-- The per-player body of the record loop of `calculate_competitiveness_index`
(lines 997-1073): an unresolved segment end resolves to the match end time
here, at the point of use. -/
def buildPlayerRecord (player_name : String) (segment : Int × Option Int)
    (is_starter : Bool) (goals_timeline : List TLGoal) (match_end_time : Int)
    (total_points : Int) (total_result : String) (is_home : Bool)
    (match_date rival : Option String) : PlayerRec :=
  let min_start := segment.1
  let min_end := segment.2.getD match_end_time
  let minutes_played := min_end - min_start
  let minutes_norm : ℚ := min ((minutes_played : ℚ) / 90) 1
  let sub_entry_situation : Option String :=
    if is_starter = false ∧ min_start > 0 then
      let before := calculate_goals_in_segment goals_timeline 0 min_start is_home
      if before.1 > before.2 then some "winning"
      else if before.1 < before.2 then some "losing"
      else some "drawing"
    else none
  let played := calculate_goals_in_segment goals_timeline min_start min_end is_home
  let played_gd := played.1 - played.2
  let played_points := pointsFromGoals played
  let without := calculate_goals_outside_segment goals_timeline min_start min_end
    match_end_time is_home
  let minutes_without := match_end_time - minutes_played
  let without_points : Option Int :=
    if minutes_without = 0 then none else some (pointsFromGoals without)
  let diff_points : ℚ :=
    if minutes_without = 0 then 0
    else ((played_points : ℚ) - ((pointsFromGoals without : Int) : ℚ))
  let indice : ℚ :=
    (minutes_norm + (played_points : ℚ) + diff_points + (played_gd : ℚ) +
      (total_points : ℚ)) / (333 / 100)
  { player_name := player_name, match_date := match_date, rival := rival,
    minutes_played := minutes_played, minutes_norm := minutes_norm,
    played_points := played_points, without_points := without_points,
    diff_points := diff_points, played_gd := played_gd, total_points := total_points,
    indice_competitividad := indice, total_result := total_result,
    is_starter := is_starter, sub_entry_situation := sub_entry_situation }

/-- Per-goal contribution of a goal to the in-segment counters. -/
def inTeamCount (s e : Int) (g : TLGoal) : Int :=
  if s ≤ g.timeMin ∧ g.timeMin ≤ e then (if g.is_team_goal then 1 else 0) else 0

/-- Per-goal contribution of a goal to the in-segment against counter. -/
def inOppCount (s e : Int) (g : TLGoal) : Int :=
  if s ≤ g.timeMin ∧ g.timeMin ≤ e then (if g.is_team_goal then 0 else 1) else 0

/-- Per-goal contribution of a goal to the outside-segment counter. -/
def outTeamCount (s e : Int) (g : TLGoal) : Int :=
  if g.timeMin < s ∨ g.timeMin > e then (if g.is_team_goal then 1 else 0) else 0

/-- Per-goal contribution of a goal to the outside-segment against counter. -/
def outOppCount (s e : Int) (g : TLGoal) : Int :=
  if g.timeMin < s ∨ g.timeMin > e then (if g.is_team_goal then 0 else 1) else 0

/-- Total team goal count of a whole timeline. -/
def totalTeamGoals (tl : List TLGoal) : Int :=
  tl.foldl (fun n g => if g.is_team_goal then n + 1 else n) 0

/-- Total opponent goal count of a whole timeline. -/
def totalOppGoals (tl : List TLGoal) : Int :=
  tl.foldl (fun n g => if g.is_team_goal then n else n + 1) 0

/-- A timeline with goals at minutes 5, 10 and 60 (10 and 60 on the segment
boundary). -/
def c10TL : List TLGoal := [⟨10, true, true⟩, ⟨60, false, true⟩, ⟨5, true, true⟩]

/-- Python truthiness of an optional player-filter list (`if include_players:`). -/
def listFilterActive (l : Option (List String)) : Bool :=
  match l with
  | some (_ :: _) => true
  | _ => false

/-- Python truthiness of the manager filter (`if manager:`). -/
def mgrActive (mgr : Option String) : Bool :=
  match mgr with
  | some s => s != ""
  | none => false

/-- Minutes-played stat of one player (lines 908-917): the first `minsPlayed`
stat, with a failed int parse collapsing to 0. -/
def playerMinsPlayed (p : PlayerEntry) : Int :=
  match p.stat.find? (fun st => st.type == some "minsPlayed") with
  | none => 0
  | some st =>
    match st.value with
    | none => 0
    | some v => (pyInt? v).getD 0

/-- Add minutes to the player-minutes dict (lines 920-923). -/
def addMinutes (acc : List (String × Int)) (name : String) (mins : Int) :
    List (String × Int) :=
  dictInsert acc name ((dictGet? acc name).getD 0 + mins)

/-- `get_minutes_played_by_player` (lines 821-925): total minutes per player
over the matches surviving the participation, date, starter, and manager
filters. A match whose date fails to parse is dropped here. -/
def get_minutes_played_by_player (data : Corpus) (team_name : String)
    (include_players exclude_players : Option (List String)) (manager : Option String)
    (date_range : Option (Date × Date)) : List (String × Int) :=
  match data.matchList with
  | none => []
  | some docs =>
    docs.foldl (fun player_minutes doc =>
      match extract_match_result doc with
      | none => player_minutes
      | some r =>
        let is_home := r.home_team == some team_name
        let is_away := r.away_team == some team_name
        if !is_home && !is_away then player_minutes
        else if (match date_range with
                 | some range => !(minutesDateKeep r.date range)
                 | none => false) then player_minutes
        else
          let starters := get_team_starting_players doc team_name
          if listFilterActive include_players &&
              !((include_players.getD []).all (fun p => starters.contains p)) then
            player_minutes
          else if listFilterActive exclude_players &&
              ((exclude_players.getD []).any (fun p => starters.contains p)) then
            player_minutes
          else if mgrActive manager &&
              !(get_team_manager doc team_name == manager.getD "") then
            player_minutes
          else
            match truthyTeamId doc team_name with
            | none => player_minutes
            | some cid =>
              ((doc.liveData.map (fun ld => ld.lineUp)).getD []).foldl
                (fun acc tl =>
                  if tl.contestantId == some cid then
                    tl.player.foldl (fun acc2 p =>
                      let player_name := p.matchName.getD ""
                      if player_name == "" then acc2
                      else addMinutes acc2 player_name (playerMinsPlayed p)) acc
                  else acc) player_minutes) []

/-- The per-match record list of `calculate_competitiveness_index`
(lines 940-1073): one record per player segment of each surviving match. The
later per-player aggregation (group-bys and merges, lines 1078-1124) is not
modeled; the claims concern the records. A match whose date fails to parse is
dropped here. -/
def compMatchRecords (doc : MatchDoc) (team_name : String)
    (include_players exclude_players : Option (List String)) (manager : Option String)
    (date_range : Option (Date × Date)) : List PlayerRec :=
  match extract_match_result doc with
  | none => []
  | some r =>
    let is_home := r.home_team == some team_name
    let is_away := r.away_team == some team_name
    if !is_home && !is_away then []
    else if (match date_range with
             | some range => !(compDateKeep r.date range)
             | none => false) then []
    else
      let starters := get_team_starting_players doc team_name
      if listFilterActive include_players &&
          !((include_players.getD []).all (fun p => starters.contains p)) then []
      else if listFilterActive exclude_players &&
          ((exclude_players.getD []).any (fun p => starters.contains p)) then []
      else if mgrActive manager &&
          !(get_team_manager doc team_name == manager.getD "") then []
      else
        let team_goals := if is_home then r.home_goals else r.away_goals
        let rival_goals := if is_home then r.away_goals else r.home_goals
        let total_result := if team_goals > rival_goals then "win"
          else if team_goals < rival_goals then "loss" else "draw"
        let total_points : Int := if team_goals > rival_goals then 3
          else if team_goals < rival_goals then 0 else 1
        let player_segments := get_player_segments_in_match doc team_name
        let player_is_starter := get_player_starter_status doc team_name
        let goals_timeline := get_goals_timeline doc team_name
        let match_end_time := get_match_end_time doc goals_timeline
        let rival := if is_home then r.away_team else r.home_team
        player_segments.map (fun seg =>
          buildPlayerRecord seg.1 seg.2
            ((dictGet? player_is_starter seg.1).getD false)
            goals_timeline match_end_time total_points total_result is_home
            r.date rival)

/-- The record phase of `calculate_competitiveness_index` (lines 928-1076). -/
def calculate_competitiveness_records (data : Corpus) (team_name : String)
    (include_players exclude_players : Option (List String)) (manager : Option String)
    (date_range : Option (Date × Date)) : List PlayerRec :=
  match data.matchList with
  | none => []
  | some docs =>
    docs.foldl (fun acc doc =>
      acc ++ compMatchRecords doc team_name include_players exclude_players manager
        date_range) []

/-- A played 1-0 match whose date string cannot be parsed. -/
def c2Doc : MatchDoc :=
  { matchInfo := some
      { id := some "m2", date := some "not-a-date",
        contestant := [⟨some "idA", some "A", some "home"⟩,
                       ⟨some "idB", some "B", some "away"⟩] },
    liveData := some
      { matchDetails := some
          { matchStatus := some "Played", scoresTotal := some ⟨some 1, some 0⟩ },
        goal := [], lineUp := [], substitute := [] } }

/-- The record extracted from `c2Doc`. -/
def c2Rec : MatchResult :=
  { match_id := some "m2", date := some "not-a-date", home_team := some "A",
    home_id := some "idA", away_team := some "B", away_id := some "idB",
    home_goals := 1, away_goals := 0, winner := "home", goals := [] }

/-- A concrete active date range. -/
def c2Range : Date × Date := (⟨2023, 1, 1⟩, ⟨2023, 12, 31⟩)

/-- C1 counterexample: a match document marked "Played" whose contestant roles are
missing and whose score block is absent still yields a record — with unresolved
team identities and a 0-0 defaulted score — contradicting the claim that
extraction yields nothing in those cases. -/
theorem c1_extract_requires_roles_counterexample :
    (extract_match_result c1Doc).isSome = true ∧
    (extract_match_result c1Doc).map MatchResult.home_team = some none ∧
    (extract_match_result c1Doc).map MatchResult.away_team = some none ∧
    (extract_match_result c1Doc).map MatchResult.home_goals = some 0 := by
  decide

/-- C1 (amended): extraction yields a record exactly when `matchInfo` is present,
the `liveData`/`matchDetails` blocks are present, and the match status is exactly
"Played". Missing contestant roles or a missing score block do not suppress the
record: the team fields stay unresolved (None) and the goals default to 0 (a draw). -/
theorem c1_extract_amended (m : MatchDoc) :
    ((extract_match_result m).isSome ↔
      ∃ mi ld md, m.matchInfo = some mi ∧ m.liveData = some ld ∧
        ld.matchDetails = some md ∧ md.matchStatus = some "Played") ∧
    (∀ mi ld md, m.matchInfo = some mi → m.liveData = some ld →
      ld.matchDetails = some md → md.matchStatus = some "Played" →
      mi.contestant = [] → md.scoresTotal = none →
      extract_match_result m =
        some ⟨mi.id, mi.date, none, none, none, none, 0, 0, "draw", ld.goal⟩) := by
  obtain ⟨omi, old⟩ := m
  constructor
  · cases omi with
    | none => simp [extract_match_result]
    | some mi =>
      cases old with
      | none => simp [extract_match_result]
      | some ld =>
        cases hmd : ld.matchDetails with
        | none => simp [extract_match_result, hmd]
        | some md =>
          by_cases hs : md.matchStatus = some "Played"
          · simp [extract_match_result, hmd, hs]
          · simp [extract_match_result, hmd, hs]
  · intro mi ld md hmi hld hmd hs hc hsc
    simp only [Option.some.injEq] at hmi hld
    subst hmi; subst hld
    simp [extract_match_result, hmd, hs, hc, hsc, assignRoles]

/-- C1 amended-claim witness at the concrete document `c1Doc`. -/
theorem c1_extract_amended_witness :
    extract_match_result c1Doc =
      some ⟨some "m1", some "2023-01-01Z", none, none, none, none, 0, 0, "draw", []⟩ :=
  (c1_extract_amended c1Doc).2
    { id := some "m1", date := some "2023-01-01Z", contestant := [] }
    { matchDetails := some { matchStatus := some "Played", scoresTotal := none },
      goal := [], lineUp := [], substitute := [] }
    { matchStatus := some "Played", scoresTotal := none }
    rfl rfl rfl rfl rfl rfl

/-- `pySorted` permutes its input. -/
theorem pySorted_perm {a : Type} (le : a -> a -> Bool) (l : List a) :
    List.Perm (pySorted le l) l :=
  List.perm_insertionSort (fun x y => le x y = true) l

/-- `pySorted` of a nonempty list is nonempty. -/
theorem pySorted_ne_nil {a : Type} (le : a -> a -> Bool) (x : a) (l : List a) :
    pySorted le (x :: l) ≠ [] := by
  intro h
  have hp := pySorted_perm le (x :: l)
  rw [h] at hp
  exact absurd hp.symm.eq_nil (by simp)

/-- Helper: the computed `comeback` flag, factored as a Bool equation. -/
theorem analyze_comeback_eq (mr : MatchResult) (team_name : Option String) :
    (analyze_match_goals mr team_name).comeback =
      ((analyze_match_goals mr team_name).conceded_first &&
        (replayWasLosing (pySorted goalLE mr.goals)
            (if team_name == mr.home_team then mr.home_id else mr.away_id) &&
          finalWinOrDraw mr team_name)) := by
  cases hg : mr.goals with
  | nil => simp [analyze_match_goals, hg]
  | cons g0 gs =>
    cases hs : pySorted goalLE (g0 :: gs) with
    | nil => exact absurd hs (pySorted_ne_nil goalLE g0 gs)
    | cons fg rest =>
      simp only [analyze_match_goals, hg, hs]
      cases hconc : (fg.contestantId ==
          if team_name == mr.home_team then mr.home_id else mr.away_id) with
      | true => simp [hconc]
      | false =>
        cases hwl : replayWasLosing (fg :: rest)
            (if team_name == mr.home_team then mr.home_id else mr.away_id) with
        | false => simp [hconc, hwl]
        | true =>
          cases hih : (team_name == mr.home_team) with
          | true =>
            simp [finalWinOrDraw, hconc, hwl, hih]
            cases hw1 : mr.winner == "home" <;> cases hw2 : mr.winner == "draw" <;> simp_all
          | false =>
            simp [finalWinOrDraw, hconc, hwl, hih]
            cases hw1 : mr.winner == "away" <;> cases hw2 : mr.winner == "draw" <;> simp_all

/-- Helper: a team that scored first did not concede first. -/
theorem analyze_conceded_of_scored (mr : MatchResult) (team_name : Option String)
    (h : (analyze_match_goals mr team_name).scored_first = true) :
    (analyze_match_goals mr team_name).conceded_first = false := by
  cases hg : mr.goals with
  | nil => simp [analyze_match_goals, hg] at h
  | cons g0 gs =>
    cases hs : pySorted goalLE (g0 :: gs) with
    | nil => exact absurd hs (pySorted_ne_nil goalLE g0 gs)
    | cons fg rest =>
      simp only [analyze_match_goals, hg, hs] at h ⊢
      simp_all

/-- C4: with a conceded-first sequence, `comeback` holds iff the replay of the
goals sorted by (period, minute) saw the opponent's running total exceed the
team's at some point and the final `winner` field is a win or draw for the
perspective team; `comeback` is false whenever the team scored first or the
match has no goals. -/
theorem c4_comeback_iff (mr : MatchResult) (team_name : Option String) :
    ((analyze_match_goals mr team_name).conceded_first = true →
      ((analyze_match_goals mr team_name).comeback = true ↔
        replayWasLosing (pySorted goalLE mr.goals)
            (if team_name == mr.home_team then mr.home_id else mr.away_id) = true ∧
          finalWinOrDraw mr team_name = true)) ∧
    ((analyze_match_goals mr team_name).scored_first = true →
      (analyze_match_goals mr team_name).comeback = false) ∧
    (mr.goals = [] → (analyze_match_goals mr team_name).comeback = false) := by
  refine ⟨?_, ?_, ?_⟩
  · intro hconc
    rw [analyze_comeback_eq, hconc]
    simp
  · intro hsc
    rw [analyze_comeback_eq, analyze_conceded_of_scored mr team_name hsc]
    simp
  · intro hnil
    simp [analyze_match_goals, hnil]

/-- C4 witness: the losing-then-winning team of `c4Match` has `comeback = true`,
via the main theorem applied at that concrete input. -/
theorem c4_comeback_iff_witness :
    (analyze_match_goals c4Match (some "A")).comeback = true :=
  ((c4_comeback_iff c4Match (some "A")).1 (by decide)).mpr (by decide)

/-- C5: a non-empty explicit rival-team list makes the aggregator ignore the
position-range request entirely: the result equals that of the same call with
the position-range request (and its reference standings) absent. -/
theorem c5_rivals_override_rank_range (ms : List (Option MatchResult))
    (match_type : String) (top_n_range : Option (Int × Int))
    (reference_standings : Option (List Row)) (ts : List (Option String))
    (advanced_filters : Option AdvFilters) (h : ts ≠ []) :
    calculate_team_stats ms match_type top_n_range reference_standings (some ts)
        advanced_filters =
      calculate_team_stats ms match_type none none (some ts) advanced_filters := by
  cases ts with
  | nil => exact absurd rfl h
  | cons t rest => rfl

/-- C5 witness at a concrete call: one match, rival list containing team B, with
a rank-range request supplied alongside. -/
theorem c5_rivals_override_rank_range_witness :
    calculate_team_stats [some c4Match] "Todos" (some (1, 2)) (some [])
        (some [some "B"]) none =
      calculate_team_stats [some c4Match] "Todos" none none (some [some "B"]) none :=
  c5_rivals_override_rank_range [some c4Match] "Todos" (some (1, 2)) (some [])
    [some "B"] none (by decide)

/-- C6: with a position-range request and no explicit opponent set,
`build_standings_table` resolves the rank range against a reference standings
table computed from ALL extracted matches with no venue, date, opponent, or
advanced filters, and restricts opponents to the team names whose rank in that
reference table lies in the inclusive requested range. -/
theorem c6_rank_range_reference (data : Corpus) (match_type : String)
    (min_pos max_pos : Int) (date_range : Option (Date × Date))
    (advanced_filters : Option AdvFilters) :
    build_standings_table data match_type (some (min_pos, max_pos)) date_range none
        advanced_filters =
      calcTeamStatsCore ((matchesProcessed data date_range advanced_filters).map some)
        match_type
        (some (((calculate_team_stats ((allExtracted data).map some) "Todos" none none
              none none).filter
            (fun r => decide (min_pos ≤ r.Pos) && decide (r.Pos ≤ max_pos))).map
          (fun r => r.Equipo)))
        advanced_filters := by
  cases hm : data.matchList with
  | none =>
    have hp : matchesProcessed data date_range advanced_filters = [] := by
      simp [matchesProcessed, hm]
    simp only [build_standings_table, hm, hp]
    rfl
  | some docs =>
    simp only [build_standings_table, hm]
    rfl

/-- `pySorted` has the same members as its input. -/
theorem pySorted_mem {a : Type} {le : a → a → Bool} {l : List a} {x : a} :
    x ∈ pySorted le l ↔ x ∈ l :=
  List.mem_insertionSort (fun u v => le u v = true)

/-- Membership in `addPos` comes from a source row with every non-rank field
unchanged. -/
theorem mem_addPos {i : Int} {l : List Row} {r : Row} (h : r ∈ addPos i l) :
    ∃ r0 ∈ l, r.Equipo = r0.Equipo ∧ r.PJ = r0.PJ ∧ r.G = r0.G ∧ r.E = r0.E ∧
      r.P = r0.P ∧ r.GF = r0.GF ∧ r.GC = r0.GC ∧ r.DG = r0.DG ∧ r.Pts = r0.Pts ∧
      r.pctPts = r0.pctPts := by
  induction l generalizing i with
  | nil => simp [addPos] at h
  | cons x xs ih =>
    simp only [addPos, List.mem_cons] at h
    rcases h with h | h
    · exact ⟨x, List.mem_cons_self x xs, by simp [h]⟩
    · obtain ⟨r0, hr0, he⟩ := ih h
      exact ⟨r0, List.mem_cons_of_mem x hr0, he⟩

/-- The per-side update preserves the points identity. -/
theorem applyResult_pts (gf gc : Int) (w d : Bool) (ts : TS)
    (h : ts.Pts = 3 * ts.G + ts.E) :
    (applyResult gf gc w d ts).Pts =
      3 * (applyResult gf gc w d ts).G + (applyResult gf gc w d ts).E := by
  unfold applyResult
  cases w <;> cases d <;> simp <;> omega

/-- Registering a team preserves the points identity. -/
theorem ptsInv_initTeam (acc : List (Option String × TS)) (k : Option String)
    (h : PtsInv acc) : PtsInv (initTeam acc k) := by
  unfold initTeam
  split
  · exact h
  · intro e he
    rcases List.mem_append.mp he with h1 | h1
    · exact h e h1
    · simp only [List.mem_singleton] at h1
      subst h1
      simp [TS.zero]

/-- Updating one team with an identity-preserving function preserves the points
identity. -/
theorem ptsInv_updateTeam (k : Option String) (f : TS → TS)
    (hf : ∀ ts, ts.Pts = 3 * ts.G + ts.E → (f ts).Pts = 3 * (f ts).G + (f ts).E) :
    ∀ acc, PtsInv acc → PtsInv (updateTeam acc k f) := by
  intro acc
  induction acc with
  | nil => intro h e he; simp [updateTeam] at he
  | cons x xs ih =>
    intro h e he
    simp only [updateTeam] at he
    split at he
    · rcases List.mem_cons.mp he with h1 | h1
      · subst h1; exact hf x.2 (h x (List.mem_cons_self _ _))
      · exact h e (List.mem_cons_of_mem _ h1)
    · rcases List.mem_cons.mp he with h1 | h1
      · exact h e (List.mem_cons.mpr (Or.inl h1))
      · exact ih (fun e2 he2 => h e2 (List.mem_cons_of_mem _ he2)) e h1

/-- The empty accumulator satisfies the points identity. -/
theorem ptsInv_nil : PtsInv [] := by
  intro e he
  simp at he

/-- A branch on any condition preserves the points identity. -/
theorem ptsInv_ite (c : Prop) [Decidable c] (l1 l2 : List (Option String × TS))
    (h1 : PtsInv l1) (h2 : PtsInv l2) : PtsInv (if c then l1 else l2) := by
  split
  · exact h1
  · exact h2

/-- A conditional per-side update preserves the points identity. -/
theorem ptsInv_condUpdate (b : Bool) (k : Option String) (gf gc : Int) (w d : Bool)
    (acc : List (Option String × TS)) (h : PtsInv acc) :
    PtsInv (if b then updateTeam acc k (applyResult gf gc w d) else acc) := by
  cases b
  · simpa using h
  · simpa using ptsInv_updateTeam k (applyResult gf gc w d)
      (fun ts hts => applyResult_pts gf gc w d ts hts) acc h

/-- One loop iteration of the aggregator preserves the points identity. -/
theorem ptsInv_step (mt : String) (ttl : Option (List (Option String)))
    (adv : Option AdvFilters) (acc : List (Option String × TS))
    (om : Option MatchResult) (h : PtsInv acc) :
    PtsInv (teamStatsStep mt ttl adv acc om) := by
  cases om with
  | none => exact h
  | some m =>
    unfold teamStatsStep
    dsimp only
    exact ptsInv_ite _ _ _ h
      (ptsInv_condUpdate _ _ _ _ _ _ _
        (ptsInv_condUpdate _ _ _ _ _ _ _
          (ptsInv_initTeam _ _ (ptsInv_initTeam _ _ h))))

/-- The whole fold preserves the points identity. -/
theorem ptsInv_fold (mt : String) (ttl : Option (List (Option String)))
    (adv : Option AdvFilters) (l : List (Option MatchResult)) :
    ∀ acc, PtsInv acc → PtsInv (l.foldl (teamStatsStep mt ttl adv) acc) := by
  induction l with
  | nil => intro acc h; exact h
  | cons x xs ih => intro acc h; exact ih _ (ptsInv_step mt ttl adv acc x h)

/-- C3 (amended): for every row of any standings table produced by the
aggregator — any corpus, any filter combination — points equal 3·wins + draws
and goal difference equals goals for minus goals against, exactly as claimed;
the points percentage, however, is the claimed ratio points/(played·3)·100
ROUNDED TO ONE DECIMAL (and 0 when played is 0), because the source applies
`round(x, 1)`. -/
theorem c3_row_invariants_amended (ms : List (Option MatchResult)) (match_type : String)
    (top_n_range : Option (Int × Int)) (reference_standings : Option (List Row))
    (rival_teams : Option (List (Option String))) (advanced_filters : Option AdvFilters)
    (r : Row)
    (hr : r ∈ calculate_team_stats ms match_type top_n_range reference_standings
        rival_teams advanced_filters) :
    r.Pts = 3 * r.G + r.E ∧ r.DG = r.GF - r.GC ∧
      r.pctPts = (if r.PJ * 3 > 0 then pyRound1 ((r.Pts : ℚ) / ((r.PJ : ℚ) * 3) * 100)
        else 0) := by
  unfold calculate_team_stats calcTeamStatsCore at hr
  obtain ⟨r0, hr0, hEq, hPJ, hG, hE, hP, hGF, hGC, hDG, hPts, hpct⟩ := mem_addPos hr
  rw [pySorted_mem] at hr0
  obtain ⟨e, he2, hre⟩ := List.mem_map.mp hr0
  have hinv := ptsInv_fold match_type
    (resolveTopTeams top_n_range reference_standings rival_teams) advanced_filters ms []
    (by intro x hx; simp at hx) e he2
  refine ⟨?_, ?_, ?_⟩
  · rw [hPts, hG, hE, ← hre]
    simpa [toRow] using hinv
  · rw [hDG, hGF, hGC, ← hre]
    simp [toRow]
  · rw [hpct, hPJ, hPts, ← hre]
    simp [toRow]

/-- C3 counterexample: after a single 0-0 draw a team has 1 point from 1 match,
and the source rounds the stored points percentage to one decimal: the row
holds 33.3, not the exact 100/3 that the claim states. -/
theorem c3_pct_rounding_counterexample :
    ∃ r, r ∈ calculate_team_stats [some c3DrawMatch] "Todos" none none none none ∧
      r.pctPts ≠ (r.Pts : ℚ) / ((r.PJ : ℚ) * 3) * 100 :=
  ⟨c3BadRow, by decide, by decide⟩

/-- C3 amended-claim witness at a concrete one-match corpus. -/
theorem c3_row_invariants_amended_witness :
    c3Row ∈ calculate_team_stats [some c4Match] "Todos" none none none none ∧
      (c3Row.Pts = 3 * c3Row.G + c3Row.E ∧ c3Row.DG = c3Row.GF - c3Row.GC ∧
        c3Row.pctPts = (if c3Row.PJ * 3 > 0 then
          pyRound1 ((c3Row.Pts : ℚ) / ((c3Row.PJ : ℚ) * 3) * 100) else 0)) :=
  ⟨by decide, c3_row_invariants_amended [some c4Match] "Todos" none none none none c3Row
    (by decide)⟩

/-- Registering a team does not change the played sum. -/
theorem sumPJ_initTeam (acc : List (Option String × TS)) (k : Option String) :
    sumPJAcc (initTeam acc k) = sumPJAcc acc := by
  unfold initTeam
  split
  · rfl
  · simp [sumPJAcc, TS.zero]

/-- After registration the key is present. -/
theorem containsKey_initTeam_self (acc : List (Option String × TS)) (k : Option String) :
    containsKey (initTeam acc k) k = true := by
  unfold initTeam
  split
  · assumption
  · simp [containsKey]

/-- Registration preserves presence of other keys. -/
theorem containsKey_initTeam_mono (acc : List (Option String × TS)) (k k2 : Option String)
    (h : containsKey acc k2 = true) : containsKey (initTeam acc k) k2 = true := by
  unfold initTeam
  split
  · exact h
  · simp only [containsKey, List.any_append, Bool.or_eq_true]
    exact Or.inl h

/-- Updates do not change which keys are present. -/
theorem containsKey_updateTeam (acc : List (Option String × TS)) (k k2 : Option String)
    (f : TS → TS) : containsKey (updateTeam acc k f) k2 = containsKey acc k2 := by
  induction acc with
  | nil => rfl
  | cons x xs ih =>
    simp only [updateTeam]
    split
    · simp [containsKey]
    · simp only [containsKey, List.any_cons] at ih ⊢
      rw [ih]

/-- Updating a present key with a function that adds one played match adds one
to the played sum. -/
theorem sumPJ_updateTeam (k : Option String) (f : TS → TS)
    (hf : ∀ ts, (f ts).PJ = ts.PJ + 1) :
    ∀ acc, containsKey acc k = true →
      sumPJAcc (updateTeam acc k f) = sumPJAcc acc + 1 := by
  intro acc
  induction acc with
  | nil => intro h; simp [containsKey] at h
  | cons x xs ih =>
    intro h
    simp only [updateTeam]
    split
    · simp only [sumPJAcc, List.map_cons, List.sum_cons, hf x.2]
      ring
    · rename_i hne
      have hxs : containsKey xs k = true := by
        simp only [containsKey, List.any_cons, Bool.or_eq_true] at h
        rcases h with h | h
        · exact absurd h hne
        · exact h
      simp only [sumPJAcc, List.map_cons, List.sum_cons] at ih ⊢
      rw [ih hxs]
      ring

/-- Each per-side update adds exactly one played match. -/
theorem applyResult_PJ (gf gc : Int) (w d : Bool) (ts : TS) :
    (applyResult gf gc w d ts).PJ = ts.PJ + 1 := by
  unfold applyResult
  cases w <;> cases d <;> simp

/-- With all-venues mode and no opponent or advanced filters, one match adds
exactly two played matches to the accumulator (one per side). -/
theorem sumPJ_step_todos (acc : List (Option String × TS)) (m : MatchResult) :
    sumPJAcc (teamStatsStep "Todos" none none acc (some m)) = sumPJAcc acc + 2 := by
  have h1 : containsKey (initTeam (initTeam acc m.home_team) m.away_team)
      m.home_team = true :=
    containsKey_initTeam_mono _ m.away_team m.home_team
      (containsKey_initTeam_self acc m.home_team)
  have h2 : containsKey (initTeam (initTeam acc m.home_team) m.away_team)
      m.away_team = true :=
    containsKey_initTeam_self _ m.away_team
  show sumPJAcc
      (updateTeam
        (updateTeam (initTeam (initTeam acc m.home_team) m.away_team) m.home_team
          (applyResult m.home_goals m.away_goals (m.winner == "home") (m.winner == "draw")))
        m.away_team
        (applyResult m.away_goals m.home_goals (m.winner == "away") (m.winner == "draw"))) =
      sumPJAcc acc + 2
  rw [sumPJ_updateTeam m.away_team _ (fun ts => applyResult_PJ _ _ _ _ ts) _
      (by rw [containsKey_updateTeam]; exact h2),
    sumPJ_updateTeam m.home_team _ (fun ts => applyResult_PJ _ _ _ _ ts) _ h1,
    sumPJ_initTeam, sumPJ_initTeam]
  ring

/-- The whole unfiltered all-venues fold adds two played matches per match. -/
theorem sumPJ_fold_todos (l : List MatchResult) :
    ∀ acc, sumPJAcc ((l.map some).foldl (teamStatsStep "Todos" none none) acc) =
      sumPJAcc acc + 2 * (l.length : Int) := by
  induction l with
  | nil => intro acc; simp
  | cons x xs ih =>
    intro acc
    simp only [List.map_cons, List.foldl_cons]
    rw [ih _, sumPJ_step_todos]
    simp only [List.length_cons]
    push_cast
    ring

/-- Rank assignment does not change the played sum. -/
theorem sumPJ_addPos (i : Int) (l : List Row) : sumPJRows (addPos i l) = sumPJRows l := by
  induction l generalizing i with
  | nil => rfl
  | cons x xs ih =>
    simp only [addPos, sumPJRows, List.map_cons, List.sum_cons] at ih ⊢
    rw [ih]

/-- Sorting does not change the played sum. -/
theorem sumPJ_pySorted (l : List Row) : sumPJRows (pySorted rowLE l) = sumPJRows l := by
  unfold sumPJRows
  exact List.Perm.sum_eq (List.Perm.map _ (pySorted_perm rowLE l))

/-- Row building preserves the played sum. -/
theorem sumPJ_map_toRow (acc : List (Option String × TS)) :
    sumPJRows (acc.map toRow) = sumPJAcc acc := by
  unfold sumPJRows sumPJAcc
  rw [List.map_map]
  rfl

/-- With no date filter and no advanced filters, the filtered pass of
`build_standings_table` keeps exactly the extracted records. -/
theorem matchesProcessed_none (data : Corpus) :
    matchesProcessed data none none = allExtracted data := by
  unfold matchesProcessed allExtracted
  generalize (data.matchList.getD []) = docs
  induction docs with
  | nil => rfl
  | cons x xs ih =>
    simp only [List.foldr_cons, List.filterMap_cons]
    rw [ih]
    cases h : extract_match_result x with
    | none => simp [h]
    | some r => simp [h]

/-- C7: for every corpus, the played column of the all-venues, fully unfiltered
standings table sums to exactly twice the number of documents for which
extraction yields a match record. -/
theorem c7_sum_played_is_twice_matches (data : Corpus) :
    sumPJRows (build_standings_table data "Todos" none none none none) =
      2 * ((allExtracted data).length : Int) := by
  cases hm : data.matchList with
  | none =>
    simp [build_standings_table, hm, allExtracted, sumPJRows]
  | some docs =>
    have hb : build_standings_table data "Todos" none none none none =
        calculate_team_stats ((matchesProcessed data none none).map some) "Todos"
          none none none none := by
      simp only [build_standings_table, hm]
    rw [hb, matchesProcessed_none]
    unfold calculate_team_stats calcTeamStatsCore
    have hres : resolveTopTeams none none none = none := rfl
    rw [hres, sumPJ_addPos, sumPJ_pySorted, sumPJ_map_toRow, sumPJ_fold_todos _ []]
    simp [sumPJAcc]

/-- C8: in every player-match record built by the competitiveness calculator,
when the minutes played equal the resolved match end time (minutes-without is
zero) the off-pitch points are undefined (None) and the differential is forced
to 0; otherwise the off-pitch points are derived from the goals outside the
player's segment and the differential is played points minus off-pitch
points. -/
theorem c8_diff_points (pn : String) (seg : Int × Option Int) (st : Bool)
    (tl : List TLGoal) (me : Int) (tp : Int) (tr : String) (ih : Bool)
    (md rv : Option String) :
    ((buildPlayerRecord pn seg st tl me tp tr ih md rv).minutes_played = me →
      (buildPlayerRecord pn seg st tl me tp tr ih md rv).without_points = none ∧
      (buildPlayerRecord pn seg st tl me tp tr ih md rv).diff_points = 0) ∧
    ((buildPlayerRecord pn seg st tl me tp tr ih md rv).minutes_played ≠ me →
      (buildPlayerRecord pn seg st tl me tp tr ih md rv).without_points =
        some (pointsFromGoals (calculate_goals_outside_segment tl seg.1
          (seg.2.getD me) me ih)) ∧
      (buildPlayerRecord pn seg st tl me tp tr ih md rv).diff_points =
        ((buildPlayerRecord pn seg st tl me tp tr ih md rv).played_points : ℚ) -
          (pointsFromGoals (calculate_goals_outside_segment tl seg.1
            (seg.2.getD me) me ih) : ℚ)) := by
  constructor
  · intro hmp
    have h0 : me - (seg.2.getD me - seg.1) = 0 := by
      simp only [buildPlayerRecord] at hmp
      omega
    simp [buildPlayerRecord, h0]
  · intro hmp
    have h0 : ¬(me - (seg.2.getD me - seg.1) = 0) := by
      simp only [buildPlayerRecord] at hmp
      omega
    simp [buildPlayerRecord, h0]

/-- C8 witness: a starter substituted off at minute 60 of a 90-minute match
with one team goal at minute 70; the differential is computed, not forced. -/
theorem c8_diff_points_witness :
    (buildPlayerRecord "p" (0, some 60) true [⟨70, true, true⟩] 90 3 "win" true
        (some "d") (some "r")).without_points =
      some (pointsFromGoals (calculate_goals_outside_segment [⟨70, true, true⟩] 0
        (((0 : Int), some (60 : Int)).2.getD 90) 90 true)) ∧
    (buildPlayerRecord "p" (0, some 60) true [⟨70, true, true⟩] 90 3 "win" true
        (some "d") (some "r")).diff_points =
      ((buildPlayerRecord "p" (0, some 60) true [⟨70, true, true⟩] 90 3 "win" true
          (some "d") (some "r")).played_points : ℚ) -
        (pointsFromGoals (calculate_goals_outside_segment [⟨70, true, true⟩] 0
          (((0 : Int), some (60 : Int)).2.getD 90) 90 true) : ℚ) :=
  (c8_diff_points "p" (0, some 60) true [⟨70, true, true⟩] 90 3 "win" true
    (some "d") (some "r")).2 (by decide)

/-- Helper: folding max commutes with an outer max. -/
theorem foldl_max_comm (l : List Int) :
    ∀ a t : Int, l.foldl max (max a t) = max a (l.foldl max t) := by
  induction l with
  | nil => intro a t; rfl
  | cons x xs IH =>
    intro a t
    simp only [List.foldl_cons]
    rw [max_assoc, IH]

/-- Helper: the Python nonempty-max branch folds from the default. -/
theorem pyMax_eq_foldl (l : List Int) (a : Int) :
    (match l with
     | [] => a
     | t :: ts => max a (ts.foldl max t)) = l.foldl max a := by
  cases l with
  | nil => rfl
  | cons t ts =>
    simp only [List.foldl_cons]
    exact (foldl_max_comm ts a t).symm

/-- C9: the match end time is the running maximum of 90, the goal minutes of
the timeline, and the substitution minutes; and a player segment whose end is
unresolved is consumed exactly as the same segment with its end resolved to
this match end time, so no computed record depends on an unresolved end. -/
theorem c9_match_end_resolution (m : MatchDoc) (tl : List TLGoal) (pn : String)
    (min_start : Int) (st : Bool) (tp : Int) (tr : String) (ih : Bool)
    (md rv : Option String) :
    get_match_end_time m tl =
      ((((m.liveData.map (fun ld => ld.substitute)).getD []).map
          (fun s => s.timeMin.getD 0)).foldl max
        ((tl.map (fun g => g.timeMin)).foldl max 90)) ∧
    buildPlayerRecord pn (min_start, none) st tl (get_match_end_time m tl) tp tr ih
        md rv =
      buildPlayerRecord pn (min_start, some (get_match_end_time m tl)) st tl
        (get_match_end_time m tl) tp tr ih md rv := by
  constructor
  · unfold get_match_end_time
    rw [pyMax_eq_foldl, pyMax_eq_foldl]
  · rfl

/-- Helper: a pairwise-additive fold shifts its accumulator. -/
theorem foldl_pair_add {b : Type} (u v : b → Int) (step : Int × Int → b → Int × Int)
    (hstep : ∀ p g, step p g = (p.1 + u g, p.2 + v g)) (l : List b) :
    ∀ a2 b2 : Int, l.foldl step (a2, b2) = (a2 + (l.map u).sum, b2 + (l.map v).sum) := by
  induction l with
  | nil => intro a2 b2; simp
  | cons g gs IH =>
    intro a2 b2
    simp only [List.foldl_cons, List.map_cons, List.sum_cons, hstep]
    rw [IH]
    simp only [Prod.mk.injEq]
    constructor <;> ring

/-- Helper: an additive Int fold shifts its accumulator. -/
theorem foldl_int_add {b : Type} (u : b → Int) (step : Int → b → Int)
    (hstep : ∀ n g, step n g = n + u g) (l : List b) :
    ∀ a : Int, l.foldl step a = a + (l.map u).sum := by
  induction l with
  | nil => intro a; simp
  | cons g gs IH =>
    intro a
    simp only [List.foldl_cons, List.map_cons, List.sum_cons, hstep]
    rw [IH]
    ring

/-- The in-segment counters as sums of per-goal contributions. -/
theorem calcIn_eq (tl : List TLGoal) (s e : Int) (ih : Bool) :
    calculate_goals_in_segment tl s e ih =
      ((tl.map (inTeamCount s e)).sum, (tl.map (inOppCount s e)).sum) := by
  have h := foldl_pair_add (inTeamCount s e) (inOppCount s e)
    (fun gfgc g =>
      if s ≤ g.timeMin ∧ g.timeMin ≤ e then
        (if g.is_team_goal then (gfgc.1 + 1, gfgc.2) else (gfgc.1, gfgc.2 + 1))
      else gfgc)
    (by
      intro p g
      unfold inTeamCount inOppCount
      by_cases h1 : s ≤ g.timeMin ∧ g.timeMin ≤ e
      · cases h2 : g.is_team_goal <;> simp [h1, h2]
      · simp [h1])
    tl 0 0
  simpa [calculate_goals_in_segment] using h

/-- The outside-segment counters as sums of per-goal contributions. -/
theorem calcOut_eq (tl : List TLGoal) (s e me : Int) (ih : Bool) :
    calculate_goals_outside_segment tl s e me ih =
      ((tl.map (outTeamCount s e)).sum, (tl.map (outOppCount s e)).sum) := by
  have h := foldl_pair_add (outTeamCount s e) (outOppCount s e)
    (fun gfgc g =>
      if g.timeMin < s ∨ g.timeMin > e then
        (if g.is_team_goal then (gfgc.1 + 1, gfgc.2) else (gfgc.1, gfgc.2 + 1))
      else gfgc)
    (by
      intro p g
      unfold outTeamCount outOppCount
      by_cases h1 : g.timeMin < s ∨ g.timeMin > e
      · cases h2 : g.is_team_goal <;> simp [h1, h2]
      · simp [h1])
    tl 0 0
  simpa [calculate_goals_outside_segment] using h

/-- The total team count as a sum of indicators. -/
theorem totalTeam_eq (tl : List TLGoal) :
    totalTeamGoals tl = (tl.map (fun g => if g.is_team_goal then (1 : Int) else 0)).sum := by
  have h := foldl_int_add (fun g => if g.is_team_goal then (1 : Int) else 0)
    (fun n g => if g.is_team_goal then n + 1 else n)
    (by intro n g; cases h2 : g.is_team_goal <;> simp [h2]) tl 0
  simpa [totalTeamGoals] using h

/-- The total opponent count as a sum of indicators. -/
theorem totalOpp_eq (tl : List TLGoal) :
    totalOppGoals tl = (tl.map (fun g => if g.is_team_goal then (0 : Int) else 1)).sum := by
  have h := foldl_int_add (fun g => if g.is_team_goal then (0 : Int) else 1)
    (fun n g => if g.is_team_goal then n else n + 1)
    (by intro n g; cases h2 : g.is_team_goal <;> simp [h2]) tl 0
  simpa [totalOppGoals] using h

/-- Inside and outside contributions are complementary per goal (team side). -/
theorem inOut_team_pointwise (s e : Int) (g : TLGoal) :
    inTeamCount s e g + outTeamCount s e g = (if g.is_team_goal then 1 else 0) := by
  unfold inTeamCount outTeamCount
  by_cases h1 : s ≤ g.timeMin ∧ g.timeMin ≤ e
  · have h2 : ¬(g.timeMin < s ∨ g.timeMin > e) := by omega
    simp [h1, h2]
  · have h2 : g.timeMin < s ∨ g.timeMin > e := by omega
    simp [h1, h2]

/-- Inside and outside contributions are complementary per goal (against side). -/
theorem inOut_opp_pointwise (s e : Int) (g : TLGoal) :
    inOppCount s e g + outOppCount s e g = (if g.is_team_goal then 0 else 1) := by
  unfold inOppCount outOppCount
  by_cases h1 : s ≤ g.timeMin ∧ g.timeMin ≤ e
  · have h2 : ¬(g.timeMin < s ∨ g.timeMin > e) := by omega
    simp [h1, h2]
  · have h2 : g.timeMin < s ∨ g.timeMin > e := by omega
    simp [h1, h2]

/-- Helper: sums of mapped functions add pointwise. -/
theorem sum_map_add {b : Type} (u v : b → Int) (l : List b) :
    (l.map u).sum + (l.map v).sum = (l.map (fun x => u x + v x)).sum := by
  induction l with
  | nil => simp
  | cons x xs IH =>
    simp only [List.map_cons, List.sum_cons]
    omega

/-- C10: for a segment with start at most end, the in-segment and
outside-segment counters partition the timeline — their for/against components
sum to the timeline's total team and opponent goal counts — and a goal whose
minute equals the start or end boundary is counted inside the segment, never
outside. -/
theorem c10_segment_partition (tl : List TLGoal) (s e me : Int) (ih : Bool)
    (hse : s ≤ e) :
    ((calculate_goals_in_segment tl s e ih).1 +
        (calculate_goals_outside_segment tl s e me ih).1 = totalTeamGoals tl ∧
      (calculate_goals_in_segment tl s e ih).2 +
        (calculate_goals_outside_segment tl s e me ih).2 = totalOppGoals tl) ∧
    (∀ g ∈ tl, g.timeMin = s ∨ g.timeMin = e →
      calculate_goals_in_segment [g] s e ih =
        (if g.is_team_goal then ((1 : Int), (0 : Int)) else (0, 1)) ∧
      calculate_goals_outside_segment [g] s e me ih = (0, 0)) := by
  refine ⟨⟨?_, ?_⟩, ?_⟩
  · rw [calcIn_eq, calcOut_eq, totalTeam_eq]
    have hfun : (fun g => inTeamCount s e g + outTeamCount s e g) =
        (fun g : TLGoal => if g.is_team_goal then (1 : Int) else 0) :=
      funext (inOut_team_pointwise s e)
    rw [show ((tl.map (inTeamCount s e)).sum, (tl.map (inOppCount s e)).sum).1 =
      (tl.map (inTeamCount s e)).sum from rfl]
    rw [show ((tl.map (outTeamCount s e)).sum, (tl.map (outOppCount s e)).sum).1 =
      (tl.map (outTeamCount s e)).sum from rfl]
    rw [sum_map_add, hfun]
  · rw [calcIn_eq, calcOut_eq, totalOpp_eq]
    have hfun : (fun g => inOppCount s e g + outOppCount s e g) =
        (fun g : TLGoal => if g.is_team_goal then (0 : Int) else 1) :=
      funext (inOut_opp_pointwise s e)
    rw [show ((tl.map (inTeamCount s e)).sum, (tl.map (inOppCount s e)).sum).2 =
      (tl.map (inOppCount s e)).sum from rfl]
    rw [show ((tl.map (outTeamCount s e)).sum, (tl.map (outOppCount s e)).sum).2 =
      (tl.map (outOppCount s e)).sum from rfl]
    rw [sum_map_add, hfun]
  · intro g hg hb
    have hc : s ≤ g.timeMin ∧ g.timeMin ≤ e := by
      rcases hb with h | h <;> omega
    have hnc : ¬(g.timeMin < s ∨ g.timeMin > e) := by omega
    constructor
    · cases hteam : g.is_team_goal <;>
        simp [calculate_goals_in_segment, hc, hteam]
    · simp [calculate_goals_outside_segment, hnc]

/-- C10 witness at the concrete segment 10..60 of `c10TL`: the counts partition
and the boundary goal at minute 10 lands inside. -/
theorem c10_segment_partition_witness :
    ((calculate_goals_in_segment c10TL 10 60 true).1 +
        (calculate_goals_outside_segment c10TL 10 60 95 true).1 =
      totalTeamGoals c10TL) ∧
    calculate_goals_in_segment [⟨10, true, true⟩] 10 60 true = ((1 : Int), (0 : Int)) := by
  constructor
  · exact ((c10_segment_partition c10TL 10 60 95 true (by decide)).1).1
  · have h := (c10_segment_partition c10TL 10 60 95 true (by decide)).2
      ⟨10, true, true⟩ (by decide) (Or.inl rfl)
    simpa using h.1

/-- C2: a match whose date string fails to parse is treated oppositely by the
two date-filter paths: with a date filter active, the standings pipeline keeps
the extracted record (it reaches the aggregation), while the player-minutes
dict and the competitiveness record list coming from that document stay
empty. -/
theorem c2_unparseable_date_split (doc : MatchDoc) (r : MatchResult)
    (team_name : String) (incl excl : Option (List String)) (mgr : Option String)
    (range : Date × Date)
    (hex : extract_match_result doc = some r)
    (h1 : parseYMD (stripZ (pyStr r.date)) = none)
    (h2 : parseYMD (splitTHead (stripZ (pyStr r.date))) = none) :
    standingsDateKeep r.date range = true ∧
    minutesDateKeep r.date range = false ∧
    compDateKeep r.date range = false ∧
    matchesProcessed ⟨some [doc]⟩ (some range) none = [r] ∧
    get_minutes_played_by_player ⟨some [doc]⟩ team_name incl excl mgr (some range) = [] ∧
    calculate_competitiveness_records ⟨some [doc]⟩ team_name incl excl mgr
      (some range) = [] := by
  have hmin : minutesDateKeep r.date range = false := by
    unfold minutesDateKeep
    simp [h2]
  have hcomp : compDateKeep r.date range = false := by
    unfold compDateKeep
    simp [h2]
  have hkeep : standingsDateKeep r.date range = true := by
    unfold standingsDateKeep
    cases hd : r.date with
    | none => rfl
    | some s =>
      rw [hd] at h1
      simp only [pyStr, Option.getD] at h1
      simp [h1]
  have hproc : matchesProcessed ⟨some [doc]⟩ (some range) none = [r] := by
    unfold matchesProcessed
    simp [hex, hkeep]
  have hmins : get_minutes_played_by_player ⟨some [doc]⟩ team_name incl excl mgr
      (some range) = [] := by
    unfold get_minutes_played_by_player
    dsimp only
    simp only [List.foldl_cons, List.foldl_nil]
    rw [hex]
    dsimp only
    by_cases hpart :
      (!(r.home_team == some team_name) && !(r.away_team == some team_name)) = true
    · rw [if_pos hpart]
    · rw [if_neg hpart, if_pos (by simp [hmin])]
  have hcomprec : compMatchRecords doc team_name incl excl mgr (some range) = [] := by
    unfold compMatchRecords
    rw [hex]
    dsimp only
    by_cases hpart :
      (!(r.home_team == some team_name) && !(r.away_team == some team_name)) = true
    · rw [if_pos hpart]
    · rw [if_neg hpart, if_pos (by simp [hcomp])]
  have hcomps : calculate_competitiveness_records ⟨some [doc]⟩ team_name incl excl mgr
      (some range) = [] := by
    unfold calculate_competitiveness_records
    simp [hcomprec]
  exact ⟨hkeep, hmin, hcomp, hproc, hmins, hcomps⟩

/-- C2 witness at the concrete document with the unparseable date. -/
theorem c2_unparseable_date_split_witness :
    matchesProcessed ⟨some [c2Doc]⟩ (some c2Range) none = [c2Rec] ∧
    get_minutes_played_by_player ⟨some [c2Doc]⟩ "A" none none none (some c2Range) = [] ∧
    calculate_competitiveness_records ⟨some [c2Doc]⟩ "A" none none none
      (some c2Range) = [] :=
  ⟨(c2_unparseable_date_split c2Doc c2Rec "A" none none none c2Range (by decide)
      (by decide) (by decide)).2.2.2.1,
   (c2_unparseable_date_split c2Doc c2Rec "A" none none none c2Range (by decide)
      (by decide) (by decide)).2.2.2.2.1,
   (c2_unparseable_date_split c2Doc c2Rec "A" none none none c2Range (by decide)
      (by decide) (by decide)).2.2.2.2.2⟩
